import Mathlib

/-!
Shallow embedding of the `virtual-arm` hand-model viewer: the OBJ mesh
loader and geometry-buffer expansion (`OBJLoader` in `src/main.py`), the
hand-position-to-rotation mapping (`src/module/math_module.py`), the
event-loop transform state machine and the per-frame tracking update
(`main` in `src/main.py`), and the GL matrix/toggle protocol of the 2D
overlay passes (`draw_camera_overlay`, `draw_text_overlay`).

Numbers are modelled as exact rationals; the GL and numpy calls that only
move data to the GPU are outside the model (the buffer contents and the
recorded vertex count are modelled).  Fallible Python code (IndexError,
ValueError) is modelled with `Option`, `none` meaning the uncaught
exception aborts the surrounding computation.
-/

namespace VirtualArm

/-- Python list indexing `xs[i]`: a non-negative index counts from the
front, a negative index counts from the end, anything out of range is an
IndexError (`none`). -/
def pyGet {α : Type} (xs : List α) (i : Int) : Option α :=
  if 0 ≤ i then xs.get? i.toNat
  else if 0 ≤ i + xs.length then xs.get? (i + xs.length).toNat
  else none

/-- Option-valued map that aborts at the first failure, modelling a Python
loop that appends results element by element until an exception is
raised. -/
def mapOpt {α β : Type} (f : α → Option β) : List α → Option (List β)
  | [] => some []
  | x :: xs =>
    match f x, mapOpt f xs with
    | some y, some ys => some (y :: ys)
    | _, _ => none

/-- Parsed OBJ data held by `OBJLoader` (`src/main.py`): `vertices`,
`normals`, `texcoords` are the parsed float rows (kept as lists of
whatever floats the record supplied, exactly as the source keeps them),
`faces` the parsed `(vertex, texcoord, normal)` index triples. -/
structure ObjData where
  vertices : List (List ℚ)
  normals : List (List ℚ)
  texcoords : List (List ℚ)
  faces : List (List (Int × Int × Int))
deriving DecidableEq, Repr

/-- The data side of the VBOs built by `OBJLoader.create_vbo`
(`src/main.py` lines 104-141): the flattened vertex stream, the flattened
normal stream, and the recorded `vertex_count = len(vertex_data) // 3`. -/
structure GeometryBuffer where
  vertex_data : List ℚ
  normal_data : List ℚ
  vertex_count : Nat
deriving DecidableEq, Repr

/-- One face-vertex of the vertex loop in `create_vbo` (`src/main.py`
lines 114-117): `if vertex[0]: vertex_data.extend(self.vertices[vertex[0] - 1])
else: vertex_data.extend([0, 0, 0])`. -/
def emitVertex (d : ObjData) (fv : Int × Int × Int) : Option (List ℚ) :=
  if fv.1 ≠ 0 then pyGet d.vertices (fv.1 - 1) else some [0, 0, 0]

/-- One face-vertex of the normal loop in `create_vbo` (`src/main.py`
lines 119-122): `if vertex[2] and self.normals:
normal_data.extend(self.normals[vertex[2] - 1]) else:
normal_data.extend([0, 0, 1])`. -/
def emitNormal (d : ObjData) (fv : Int × Int × Int) : Option (List ℚ) :=
  if fv.2.2 ≠ 0 ∧ d.normals ≠ [] then pyGet d.normals (fv.2.2 - 1)
  else some [0, 0, 1]

/-- `OBJLoader.create_vbo` (`src/main.py` lines 104-141): walk every face
and every face-vertex in order, extending the vertex stream and the
normal stream, then record `vertex_count = len(vertex_data) // 3`.  An
IndexError from either lookup aborts the whole build (`none`). -/
def create_vbo (d : ObjData) : Option GeometryBuffer :=
  (mapOpt (emitVertex d) d.faces.flatten).bind fun vp =>
    (mapOpt (emitNormal d) d.faces.flatten).map fun np =>
      ⟨vp.flatten, np.flatten, vp.flatten.length / 3⟩

/-- `get_rotation_angles` (`src/module/math_module.py` lines 4-8, and the
identical formula in `HandTracker.get_rotation_angles`, `src/main.py`
lines 46-52): returns `(rotation_x, rotation_y, zoom)` with
`rotation_y = (hand_position[0] - 0.5) * 360`,
`rotation_x = (hand_position[1] - 0.5) * 360`,
`zoom = hand_position[2] * -10`. -/
def get_rotation_angles (hand_position : ℚ × ℚ × ℚ) : ℚ × ℚ × ℚ :=
  ((hand_position.2.1 - 0.5) * 360, (hand_position.1 - 0.5) * 360,
    hand_position.2.2 * (-10))

/-- Python `str.split()` with no argument: split on runs of whitespace,
dropping empty pieces.  The second argument accumulates the current word
in reverse. -/
def splitWsAux : List Char → List Char → List (List Char)
  | [], acc => if acc.isEmpty then [] else [acc.reverse]
  | c :: rest, acc =>
    if c.isWhitespace then
      if acc.isEmpty then splitWsAux rest []
      else acc.reverse :: splitWsAux rest []
    else splitWsAux rest (c :: acc)

/-- Python `str.split('/')`: split at every slash, keeping empty pieces
(so `"//".split('/') == ['', '', '']`). -/
def splitSlashAux : List Char → List Char → List (List Char)
  | [], acc => [acc.reverse]
  | c :: rest, acc =>
    if c = '/' then acc.reverse :: splitSlashAux rest []
    else splitSlashAux rest (c :: acc)

/-- Digits-only natural number parser: the common core of Python `int()`
and `float()` on the digit runs this program's mesh files contain. -/
def parseNatDigits (cs : List Char) : Option Nat :=
  match cs with
  | [] => none
  | _ =>
    if cs.all Char.isDigit then
      some (cs.foldl (fun a c => 10 * a + (c.toNat - 48)) 0)
    else none

/-- Python `int(s)` on the index tokens of a face record: an optional
sign followed by digits; anything else raises ValueError (`none`).
(Pythonic extras such as underscores or surrounding whitespace are
outside the mesh grammar this program consumes.) -/
def parseInt (s : List Char) : Option Int :=
  match s with
  | '-' :: rest => (parseNatDigits rest).map (fun n => -(n : Int))
  | '+' :: rest => (parseNatDigits rest).map (fun n => (n : Int))
  | cs => (parseNatDigits cs).map (fun n => (n : Int))

/-- Unsigned part of Python `float(s)`: digits with an optional single
decimal point (`"1"`, `"1."`, `".5"`, `"0.25"`); exponents and the other
float spellings are outside the mesh grammar this program consumes, and
malformed tokens raise ValueError (`none`). -/
def parseUFloat (cs : List Char) : Option ℚ :=
  match cs.span (fun c => c ≠ '.') with
  | (ip, []) => (parseNatDigits ip).map (fun n => (n : ℚ))
  | (ip, _ :: fp) =>
    if fp.contains '.' then none
    else if ip.isEmpty && fp.isEmpty then none
    else
      match (if ip.isEmpty then some 0 else parseNatDigits ip),
          (if fp.isEmpty then some 0 else parseNatDigits fp) with
      | some a, some b => some ((a : ℚ) + (b : ℚ) / (10 : ℚ) ^ fp.length)
      | _, _ => none

/-- Python `float(s)` on the coordinate tokens of vertex/normal/texcoord
records (see `parseUFloat` for the covered grammar). -/
def parseFloat (s : List Char) : Option ℚ :=
  match s with
  | '-' :: rest => (parseUFloat rest).map (fun q => -q)
  | '+' :: rest => parseUFloat rest
  | cs => parseUFloat cs

/-- One slash-separated face index group (`src/main.py` lines 92-96):
`w = v.split('/')`, then each of the three fields is `int(w[i])` when
present (`len(w) > i`) and non-empty (truthy), else `0`. -/
def pyFieldInt (w : List (List Char)) (i : Nat) : Option Int :=
  match w.get? i with
  | none => some 0
  | some s => if s.isEmpty then some 0 else parseInt s

/-- Parse one face-vertex token of an `f` record into its
`(vertex, texcoord, normal)` index triple. -/
def parseFaceVertex (v : List Char) : Option (Int × Int × Int) :=
  let w := splitSlashAux v []
  match pyFieldInt w 0, pyFieldInt w 1, pyFieldInt w 2 with
  | some a, some b, some c => some (a, b, c)
  | _, _, _ => none

/-- One line of `OBJLoader.load_obj` (`src/main.py` lines 73-97): skip
comment lines and blank lines, dispatch on the leading token (`v`, `vn`,
`vt`, `f`), ignore unknown record kinds; a ValueError from a float/int
parse aborts the load (`none`). -/
def processLine (d : ObjData) (line : String) : Option ObjData :=
  if line.data.head? = some '#' then some d
  else
    match splitWsAux line.data [] with
    | [] => some d
    | kw :: rest =>
      if kw = ['v'] then
        (mapOpt parseFloat (rest.take 3)).map
          (fun v => { d with vertices := d.vertices ++ [v] })
      else if kw = ['v', 'n'] then
        (mapOpt parseFloat (rest.take 3)).map
          (fun v => { d with normals := d.normals ++ [v] })
      else if kw = ['v', 't'] then
        (mapOpt parseFloat (rest.take 2)).map
          (fun v => { d with texcoords := d.texcoords ++ [v] })
      else if kw = ['f'] then
        (mapOpt parseFaceVertex rest).map
          (fun fc => { d with faces := d.faces ++ [fc] })
      else some d

/-- `OBJLoader.load_obj` (`src/main.py` lines 69-102) on the lines of the
mesh file, starting from the empty `ObjData` set up in `__init__`. -/
def load_obj (lines : List String) : Option ObjData :=
  lines.foldlM processLine ⟨[], [], [], []⟩

/-- `OBJLoader.__init__` (`src/main.py` lines 58-67): load the file, then
build the VBO data. -/
def OBJLoader_init (lines : List String) : Option (ObjData × GeometryBuffer) :=
  (load_obj lines).bind fun d => (create_vbo d).map fun b => (d, b)

/-! ### Transform controller: the event loop of `main` (`src/main.py`) -/

/-- The keys the event loop of `main` reacts to (`src/main.py` lines
349-362); every other key is ignored. -/
inductive PyKey
  | escape
  | keyR
  | keyT
  | otherKey
deriving DecidableEq, Repr

/-- The pygame events the loop of `main` handles (`src/main.py` lines
346-381). -/
inductive PyEvent
  | quit
  | keyDown (k : PyKey)
  | mouseButtonDown (button : Nat) (pos : Int × Int)
  | mouseButtonUp (button : Nat)
  | mouseMotion (pos : Int × Int)
deriving DecidableEq, Repr

/-- The local state the event loop of `main` mutates (`src/main.py` lines
322-335): rotation angles, zoom, the tracking/manual mode flag, the mouse
drag state, and the loop flag. -/
structure CtrlState where
  rotation_x : ℚ
  rotation_y : ℚ
  zoom : ℚ
  use_hand_tracking : Bool
  mouse_down : Bool
  last_mouse_pos : Option (Int × Int)
  running : Bool
deriving DecidableEq, Repr

/-- One iteration of the event dispatch in `main` (`src/main.py` lines
346-381).  `K_r` resets the transform, `K_t` toggles the mode, button 1
starts/stops a drag, buttons 4/5 change the zoom by `±0.5`, and mouse
motion rotates by `0.5` per pixel while dragging with tracking off. -/
def handle_event (s : CtrlState) : PyEvent → CtrlState
  | .quit => { s with running := false }
  | .keyDown k =>
    match k with
    | .escape => { s with running := false }
    | .keyR => { s with rotation_x := 0, rotation_y := 0, zoom := 0 }
    | .keyT => { s with use_hand_tracking := !s.use_hand_tracking }
    | .otherKey => s
  | .mouseButtonDown b pos =>
    if b = 1 then { s with mouse_down := true, last_mouse_pos := some pos }
    else if b = 4 then { s with zoom := s.zoom + 0.5 }
    else if b = 5 then { s with zoom := s.zoom - 0.5 }
    else s
  | .mouseButtonUp b =>
    if b = 1 then { s with mouse_down := false } else s
  | .mouseMotion pos =>
    match s.last_mouse_pos with
    | some lp =>
      if s.mouse_down && !s.use_hand_tracking then
        { s with
          rotation_y := s.rotation_y + ((pos.1 - lp.1 : Int) : ℚ) * 0.5,
          rotation_x := s.rotation_x + ((pos.2 - lp.2 : Int) : ℚ) * 0.5,
          last_mouse_pos := some pos }
      else s
    | none => s

/-! ### Per-frame tracking update (`src/main.py` lines 383-397) -/

/-- The state touched by the per-frame webcam block: the transform
variables of `main` plus the tracker's stored `hand_position`
(`src/main.py` line 19). -/
structure AppState where
  rotation_x : ℚ
  rotation_y : ℚ
  zoom : ℚ
  use_hand_tracking : Bool
  hand_position : ℚ × ℚ × ℚ
deriving DecidableEq, Repr

/-- Effect of `HandTracker.process_frame` on the stored hand position
(`src/main.py` lines 21-33): when a hand is detected the palm landmark
replaces the stored position, otherwise the previous position is kept. -/
def process_frame (hand_position : ℚ × ℚ × ℚ) (detected : Option (ℚ × ℚ × ℚ)) :
    ℚ × ℚ × ℚ :=
  match detected with
  | some palm => palm
  | none => hand_position

/-- One per-frame webcam update of `main` (`src/main.py` lines 383-397).
`camera = none` models a failed `cap.read()` (`ret == False`);
`camera = some detected` models a successful read, with `detected` the
optional palm position found by the tracker.  On a successful read the
tracker state updates, and in tracking mode the transform is recomputed
from the (possibly stale) stored hand position. -/
def frame_update (s : AppState) (camera : Option (Option (ℚ × ℚ × ℚ))) : AppState :=
  match camera with
  | none => s
  | some detected =>
    let s1 := { s with hand_position := process_frame s.hand_position detected }
    if s1.use_hand_tracking then
      let a := get_rotation_angles s1.hand_position
      { s1 with rotation_x := a.1, rotation_y := a.2.1, zoom := a.2.2 }
    else s1

/-! ### GL matrix-stack and toggle model for the 2D overlay passes -/

/-- The two matrix modes the overlay code switches between. -/
inductive MatMode
  | projectionMode
  | modelviewMode
deriving DecidableEq, Repr

/-- The server-side toggles the overlay code touches. -/
inductive GLCap
  | depthTestCap
  | lightingCap
  | blendCap
deriving DecidableEq, Repr

/-- Symbolic matrix values: enough to show that a pop restores exactly
the pushed matrix. -/
inductive Mat
  | base (n : Nat)
  | ident
  | orthoApp (m : Mat)
deriving DecidableEq, Repr

/-- The GL calls issued by `draw_camera_overlay` and `draw_text_overlay`
(`src/main.py` lines 175-254).  Calls that touch neither the matrix
stacks nor the tracked toggles (`glBlendFunc`, `glColor4f`, `glBegin`,
`glVertex2f`, `glEnd`, `glRasterPos2f`, `glDrawPixels`) are carried as
explicit no-ops so the sequences below mirror the source line by line. -/
inductive GLOp
  | matrixMode (m : MatMode)
  | pushMatrix
  | popMatrix
  | loadIdentity
  | ortho
  | enable (c : GLCap)
  | disable (c : GLCap)
  | blendFunc
  | color4f
  | beginQuads
  | vertex2f
  | endQuads
  | rasterPos2f
  | drawPixels
deriving DecidableEq, Repr

/-- The GL server state the overlay claims are about: the active matrix
mode, the current projection/modelview matrices with their stacks, the
three toggles, and a flag recording a stack underflow
(`GL_STACK_UNDERFLOW`: the pop is ignored). -/
structure GLState where
  mode : MatMode
  projCur : Mat
  projStack : List Mat
  mvCur : Mat
  mvStack : List Mat
  depthTest : Bool
  lighting : Bool
  blend : Bool
  stackError : Bool
deriving DecidableEq, Repr

/-- Set one toggle. -/
def setCap (s : GLState) (c : GLCap) (b : Bool) : GLState :=
  match c with
  | .depthTestCap => { s with depthTest := b }
  | .lightingCap => { s with lighting := b }
  | .blendCap => { s with blend := b }

/-- Semantics of one GL call on `GLState`. -/
def glStep (s : GLState) : GLOp → GLState
  | .matrixMode m => { s with mode := m }
  | .pushMatrix =>
    match s.mode with
    | .projectionMode => { s with projStack := s.projCur :: s.projStack }
    | .modelviewMode => { s with mvStack := s.mvCur :: s.mvStack }
  | .popMatrix =>
    match s.mode with
    | .projectionMode =>
      match s.projStack with
      | [] => { s with stackError := true }
      | m :: rest => { s with projCur := m, projStack := rest }
    | .modelviewMode =>
      match s.mvStack with
      | [] => { s with stackError := true }
      | m :: rest => { s with mvCur := m, mvStack := rest }
  | .loadIdentity =>
    match s.mode with
    | .projectionMode => { s with projCur := .ident }
    | .modelviewMode => { s with mvCur := .ident }
  | .ortho =>
    match s.mode with
    | .projectionMode => { s with projCur := .orthoApp s.projCur }
    | .modelviewMode => { s with mvCur := .orthoApp s.mvCur }
  | .enable c => setCap s c true
  | .disable c => setCap s c false
  | .blendFunc => s
  | .color4f => s
  | .beginQuads => s
  | .vertex2f => s
  | .endQuads => s
  | .rasterPos2f => s
  | .drawPixels => s

/-- Run a sequence of GL calls. -/
def runGL (s : GLState) (ops : List GLOp) : GLState :=
  ops.foldl glStep s

/-- Number of `glPushMatrix` calls a sequence performs while the active
matrix mode is `tgt`, starting from mode `m`. -/
def pushCount (m tgt : MatMode) : List GLOp → Nat
  | [] => 0
  | op :: rest =>
    match op with
    | .matrixMode m' => pushCount m' tgt rest
    | .pushMatrix => (if m = tgt then 1 else 0) + pushCount m tgt rest
    | _ => pushCount m tgt rest

/-- Number of `glPopMatrix` calls a sequence performs while the active
matrix mode is `tgt`, starting from mode `m`. -/
def popCount (m tgt : MatMode) : List GLOp → Nat
  | [] => 0
  | op :: rest =>
    match op with
    | .matrixMode m' => popCount m' tgt rest
    | .popMatrix => (if m = tgt then 1 else 0) + popCount m tgt rest
    | _ => popCount m tgt rest

/-- The GL call sequence of `draw_camera_overlay` (`src/main.py` lines
175-221), in source order. -/
def cameraOverlayOps : List GLOp :=
  [.matrixMode .projectionMode, .pushMatrix, .loadIdentity, .ortho,
   .matrixMode .modelviewMode, .pushMatrix, .loadIdentity,
   .disable .depthTestCap, .disable .lightingCap,
   .enable .blendCap, .blendFunc, .color4f,
   .beginQuads, .vertex2f, .vertex2f, .vertex2f, .vertex2f, .endQuads,
   .rasterPos2f, .drawPixels,
   .disable .blendCap,
   .enable .depthTestCap, .enable .lightingCap,
   .matrixMode .projectionMode, .popMatrix,
   .matrixMode .modelviewMode, .popMatrix]

/-- The closing GL calls of `draw_text_overlay` (`src/main.py` lines
248-254), after the per-line loop. -/
def textClose : List GLOp :=
  [.enable .depthTestCap, .enable .lightingCap,
   .matrixMode .projectionMode, .popMatrix,
   .matrixMode .modelviewMode, .popMatrix]

/-- The per-line loop of `draw_text_overlay` (`src/main.py` lines
240-246): each text line issues `glRasterPos2f` and `glDrawPixels`; after
`n` lines the closing calls follow. -/
def textLoop : Nat → List GLOp
  | 0 => textClose
  | n + 1 => .rasterPos2f :: .drawPixels :: textLoop n

/-- The GL call sequence of `draw_text_overlay` (`src/main.py` lines
223-254) for `n` text lines, in source order. -/
def textOverlayOps (n : Nat) : List GLOp :=
  [.matrixMode .projectionMode, .pushMatrix, .loadIdentity, .ortho,
   .matrixMode .modelviewMode, .pushMatrix, .loadIdentity,
   .disable .depthTestCap, .disable .lightingCap] ++ textLoop n

/-! ### The module variant of the loader (`src/module/model_module.py`) -/

/-- Parsed OBJ data held by the `OBJLoader` of
`src/module/model_module.py`: that variant parses no texcoords and keeps
`(vertex, normal)` index pairs. -/
structure ModObjData where
  vertices : List (List ℚ)
  normals : List (List ℚ)
  faces : List (List (Int × Int))
deriving DecidableEq, Repr

/-- Vertex emission of `create_vbo` in `src/module/model_module.py`
(line 47): `vertex_data.extend(self.vertices[vertex[0]-1])` with no
zero-index guard. -/
def modEmitVertex (d : ModObjData) (fv : Int × Int) : Option (List ℚ) :=
  pyGet d.vertices (fv.1 - 1)

/-- Normal emission of `create_vbo` in `src/module/model_module.py`
(lines 48-51): `if vertex[1]: normal_data.extend(self.normals[vertex[1]-1])
else: normal_data.extend([0, 0, 1])` (no emptiness check on `normals`). -/
def modEmitNormal (d : ModObjData) (fv : Int × Int) : Option (List ℚ) :=
  if fv.2 ≠ 0 then pyGet d.normals (fv.2 - 1) else some [0, 0, 1]

/-- `OBJLoader.create_vbo` of `src/module/model_module.py` (lines
42-65). -/
def modCreate_vbo (d : ModObjData) : Option GeometryBuffer :=
  (mapOpt (modEmitVertex d) d.faces.flatten).bind fun vp =>
    (mapOpt (modEmitNormal d) d.faces.flatten).map fun np =>
      ⟨vp.flatten, np.flatten, vp.flatten.length / 3⟩

/-! ### Spec-side definition for the normal-derivation claim -/

/-- Modelled from the spec: the cross product `cross (v2 - v1) (v3 - v1)`
at the heart of the per-vertex normal derivation the spec describes
("compute the cross product of (v2−v1) and (v3−v1), normalize ...");
no such derivation exists in the source, so the spec's formula is stated
here for comparison with what the code emits.  Any normalization of a
nonzero vector is a positive scalar multiple of it, which is how the
comparison theorems quantify over the spec's epsilon-guarded
normalization without fixing an epsilon. -/
def specCross (a b : ℚ × ℚ × ℚ) : ℚ × ℚ × ℚ :=
  (a.2.1 * b.2.2 - a.2.2 * b.2.1,
   a.2.2 * b.1 - a.1 * b.2.2,
   a.1 * b.2.1 - a.2.1 * b.1)

/-! ### Concrete meshes used by the scenario and counterexample theorems -/

/-- The spec's end-to-end scenario mesh file: one triangular face on
vertices `[[0,0,0],[1,0,0],[0,1,0]]`, no normals. -/
def scenarioLines : List String :=
  ["v 0 0 0", "v 1 0 0", "v 0 1 0", "f 1 2 3"]

/-- A mesh file with one triangular face lying in the xz-plane (vertices
`[[0,0,0],[1,0,0],[0,0,1]]`) and no normals: its spec-derived face normal
is `(0,-1,0)`, not `(0,0,1)`. -/
def xzTriLines : List String :=
  ["v 0 0 0", "v 1 0 0", "v 0 0 1", "f 1 2 3"]

/-- The parsed scenario mesh. -/
def scenarioMesh : ObjData :=
  ⟨[[0, 0, 0], [1, 0, 0], [0, 1, 0]], [], [], [[(1, 0, 0), (2, 0, 0), (3, 0, 0)]]⟩

/-- The buffer the scenario mesh builds. -/
def scenarioBuf : GeometryBuffer :=
  ⟨[0, 0, 0, 1, 0, 0, 0, 1, 0], [0, 0, 1, 0, 0, 1, 0, 0, 1], 3⟩

/-- A mesh whose only face references vertex index 2 while only one
vertex exists: the lookup `vertices[1]` raises IndexError. -/
def oobMesh : ObjData :=
  ⟨[[0, 0, 0]], [], [], [[(2, 0, 0)]]⟩

/-- A mesh whose only face carries normal index `-1` with two normals
present: `normals[-2]` resolves end-relative to the first normal. -/
def negNormalMesh : ObjData :=
  ⟨[[0, 0, 0]], [[1, 2, 3], [4, 5, 6]], [], [[(1, 0, -1)]]⟩

/-- A mesh whose only face carries vertex index `-1` while only one
vertex exists: `vertices[-2]` raises IndexError. -/
def negOobMesh : ObjData :=
  ⟨[[7, 8, 9]], [], [], [[(-1, 0, 0)]]⟩

/-! ### Basic lemmas about the embedding -/

/-- A successful `mapOpt` preserves length. -/
theorem mapOpt_length {α β : Type} {f : α → Option β} :
    ∀ {xs : List α} {ys : List β}, mapOpt f xs = some ys → ys.length = xs.length := by
  intro xs
  induction xs with
  | nil =>
    intro ys h
    simp only [mapOpt, Option.some.injEq] at h
    subst h
    rfl
  | cons x xs ih =>
    intro ys h
    simp only [mapOpt] at h
    cases hfx : f x with
    | none => rw [hfx] at h; exact absurd h (by simp)
    | some y =>
      rw [hfx] at h
      cases hm : mapOpt f xs with
      | none => rw [hm] at h; exact absurd h (by simp)
      | some ys' =>
        rw [hm] at h
        simp only [Option.some.injEq] at h
        subst h
        simp [ih hm]

/-- Every output element of a successful `mapOpt` comes from an input
element. -/
theorem mapOpt_mem {α β : Type} {f : α → Option β} :
    ∀ {xs : List α} {ys : List β}, mapOpt f xs = some ys →
      ∀ {y : β}, y ∈ ys → ∃ x ∈ xs, f x = some y := by
  intro xs
  induction xs with
  | nil =>
    intro ys h y hy
    simp only [mapOpt, Option.some.injEq] at h
    subst h
    simp at hy
  | cons x xs ih =>
    intro ys h y hy
    simp only [mapOpt] at h
    cases hfx : f x with
    | none => rw [hfx] at h; exact absurd h (by simp)
    | some y' =>
      rw [hfx] at h
      cases hm : mapOpt f xs with
      | none => rw [hm] at h; exact absurd h (by simp)
      | some ys' =>
        rw [hm] at h
        simp only [Option.some.injEq] at h
        subst h
        rcases List.mem_cons.mp hy with hy | hy
        · exact ⟨x, List.mem_cons_self x xs, by rw [hfx, hy]⟩
        · obtain ⟨x', hx', hfx'⟩ := ih hm hy
          exact ⟨x', List.mem_cons_of_mem x hx', hfx'⟩

/-- `mapOpt` fails as soon as one element fails. -/
theorem mapOpt_none {α β : Type} {f : α → Option β} {x : α} :
    ∀ {xs : List α}, x ∈ xs → f x = none → mapOpt f xs = none := by
  intro xs
  induction xs with
  | nil => intro h; simp at h
  | cons a xs ih =>
    intro hmem hfx
    rcases List.mem_cons.mp hmem with h | h
    · subst h
      simp only [mapOpt, hfx]
    · simp only [mapOpt, ih h hfx]
      cases f a <;> rfl

/-- `mapOpt` of a function that is constantly `some c` on the list. -/
theorem mapOpt_const {α β : Type} {f : α → Option β} {c : β} :
    ∀ {xs : List α}, (∀ x ∈ xs, f x = some c) →
      mapOpt f xs = some (List.replicate xs.length c) := by
  intro xs
  induction xs with
  | nil => intro _; rfl
  | cons x xs ih =>
    intro h
    simp only [mapOpt, h x (List.mem_cons_self x xs),
      ih (fun a ha => h a (List.mem_cons_of_mem x ha)), List.length_cons,
      List.replicate_succ]

/-- A successful Python lookup returns an element of the list. -/
theorem pyGet_mem {α : Type} {xs : List α} {i : Int} {a : α}
    (h : pyGet xs i = some a) : a ∈ xs := by
  unfold pyGet at h
  split at h
  · exact List.get?_mem h
  · split at h
    · exact List.get?_mem h
    · exact absurd h (by simp)

/-- Python lookup at a negative in-range index resolves from the end. -/
theorem pyGet_neg {α : Type} (xs : List α) (i : Int) (hneg : i < 0) :
    pyGet xs i = if 0 ≤ i + xs.length then xs.get? (i + xs.length).toNat else none := by
  unfold pyGet
  rw [if_neg (by omega)]

/-- Python lookup at an index at or beyond the length fails. -/
theorem pyGet_ge {α : Type} (xs : List α) (i : Int)
    (h : (xs.length : Int) ≤ i) : pyGet xs i = none := by
  unfold pyGet
  rw [if_pos (by omega), List.get?_eq_none.mpr (by omega)]

/-- Flattening a list of length-3 rows gives `3 *` the row count. -/
theorem flatten_length_const3 {L : List (List ℚ)} (h : ∀ l ∈ L, l.length = 3) :
    L.flatten.length = 3 * L.length := by
  induction L with
  | nil => rfl
  | cons l L ih =>
    simp only [List.flatten_cons, List.length_append, List.length_cons,
      h l (List.mem_cons_self l L),
      ih (fun x hx => h x (List.mem_cons_of_mem l hx))]
    ring

/-- Every row a successful `emitVertex` produces has 3 entries, provided
every parsed vertex does. -/
theorem emitVertex_length {d : ObjData} {fv : Int × Int × Int} {l : List ℚ}
    (hv : ∀ v ∈ d.vertices, v.length = 3)
    (h : emitVertex d fv = some l) : l.length = 3 := by
  unfold emitVertex at h
  split at h
  · exact hv l (pyGet_mem h)
  · injection h with h
    subst h
    rfl

/-- Every row a successful `emitNormal` produces has 3 entries, provided
every parsed normal does. -/
theorem emitNormal_length {d : ObjData} {fv : Int × Int × Int} {l : List ℚ}
    (hn : ∀ v ∈ d.normals, v.length = 3)
    (h : emitNormal d fv = some l) : l.length = 3 := by
  unfold emitNormal at h
  split at h
  · exact hn l (pyGet_mem h)
  · injection h with h
    subst h
    rfl

/-- Inversion of a successful `create_vbo`. -/
theorem create_vbo_inv {d : ObjData} {b : GeometryBuffer}
    (hb : create_vbo d = some b) :
    ∃ vp np, mapOpt (emitVertex d) d.faces.flatten = some vp ∧
      mapOpt (emitNormal d) d.faces.flatten = some np ∧
      b = ⟨vp.flatten, np.flatten, vp.flatten.length / 3⟩ := by
  unfold create_vbo at hb
  rw [Option.bind_eq_some] at hb
  obtain ⟨vp, hvp, hmap⟩ := hb
  rw [Option.map_eq_some'] at hmap
  obtain ⟨np, hnp, hb⟩ := hmap
  exact ⟨vp, np, hvp, hnp, hb.symm⟩

/-- The per-line loop of the text overlay does not change the GL state:
running it is running the closing calls. -/
theorem runGL_textLoop (s : GLState) : ∀ n : Nat, runGL s (textLoop n) = runGL s textClose := by
  intro n
  induction n with
  | zero => rfl
  | succ k ih => exact ih

/-- The per-line loop of the text overlay performs no pushes. -/
theorem pushCount_textLoop (m tgt : MatMode) :
    ∀ n : Nat, pushCount m tgt (textLoop n) = pushCount m tgt textClose := by
  intro n
  induction n with
  | zero => rfl
  | succ k ih => exact ih

/-- The per-line loop of the text overlay performs no pops. -/
theorem popCount_textLoop (m tgt : MatMode) :
    ∀ n : Nat, popCount m tgt (textLoop n) = popCount m tgt textClose := by
  intro n
  induction n with
  | zero => rfl
  | succ k ih => exact ih

/-- The matrix/toggle state an overlay pass leaves untouched: current
projection and modelview matrices, both stacks, and the depth-test and
lighting toggles. -/
def overlayRestores (s : GLState) (ops : List GLOp) : Prop :=
  (runGL s ops).projCur = s.projCur ∧
  (runGL s ops).projStack = s.projStack ∧
  (runGL s ops).mvCur = s.mvCur ∧
  (runGL s ops).mvStack = s.mvStack ∧
  (runGL s ops).depthTest = s.depthTest ∧
  (runGL s ops).lighting = s.lighting

/-- Exactly one push and one pop on each of the projection and modelview
stacks, starting from matrix mode `m`. -/
def overlayBalanced (m : MatMode) (ops : List GLOp) : Prop :=
  pushCount m .projectionMode ops = 1 ∧
  popCount m .projectionMode ops = 1 ∧
  pushCount m .modelviewMode ops = 1 ∧
  popCount m .modelviewMode ops = 1

/-- A GL state as the 3D pass leaves it: depth test and lighting enabled
(as `setup_opengl`/`setup_lighting` configure and the 3D pass keeps
them), blending off, arbitrary matrices. -/
def glInitState : GLState :=
  ⟨.modelviewMode, .base 0, [], .base 1, [], true, true, false, false⟩

end VirtualArm

namespace VirtualArm

/-- Claim C6: applying the reset input (the `R` key) produces rotation
`(0,0)` and zoom `0` from every prior state, in either mode (the mode
flag and all other fields are untouched), and applying reset twice gives
the same state as applying it once. -/
theorem c6_reset (s : CtrlState) :
    (handle_event s (.keyDown .keyR)).rotation_x = 0 ∧
    (handle_event s (.keyDown .keyR)).rotation_y = 0 ∧
    (handle_event s (.keyDown .keyR)).zoom = 0 ∧
    (handle_event s (.keyDown .keyR)).use_hand_tracking = s.use_hand_tracking ∧
    (handle_event s (.keyDown .keyR)).mouse_down = s.mouse_down ∧
    (handle_event s (.keyDown .keyR)).last_mouse_pos = s.last_mouse_pos ∧
    (handle_event s (.keyDown .keyR)).running = s.running ∧
    handle_event (handle_event s (.keyDown .keyR)) (.keyDown .keyR) =
      handle_event s (.keyDown .keyR) :=
  ⟨rfl, rfl, rfl, rfl, rfl, rfl, rfl, rfl⟩

/-- Claim C7: the mode-toggle input (the `T` key) flips the tracking flag
between its two values and changes nothing else, and toggling twice
returns exactly the original state. -/
theorem c7_toggle (s : CtrlState) :
    (handle_event s (.keyDown .keyT)).use_hand_tracking = !s.use_hand_tracking ∧
    (handle_event s (.keyDown .keyT)).rotation_x = s.rotation_x ∧
    (handle_event s (.keyDown .keyT)).rotation_y = s.rotation_y ∧
    (handle_event s (.keyDown .keyT)).zoom = s.zoom ∧
    (handle_event s (.keyDown .keyT)).mouse_down = s.mouse_down ∧
    (handle_event s (.keyDown .keyT)).last_mouse_pos = s.last_mouse_pos ∧
    (handle_event s (.keyDown .keyT)).running = s.running ∧
    handle_event (handle_event s (.keyDown .keyT)) (.keyDown .keyT) = s := by
  refine ⟨rfl, rfl, rfl, rfl, rfl, rfl, rfl, ?_⟩
  show ({ s with use_hand_tracking := !!s.use_hand_tracking } : CtrlState) = s
  rw [Bool.not_not]

/-- Claim C8 (counterexample): in tracking mode, on a frame where the
camera read succeeds but no hand is detected, the transform is NOT held
unchanged: from the post-reset state `(0,0,0)` with stored hand position
`(1, 0.5, 0)`, the update snaps `rotation_y` to `180`. -/
theorem c8_counterexample :
    (frame_update ⟨0, 0, 0, true, (1, 0.5, 0)⟩ (some none)).rotation_y = 180 ∧
    (⟨0, 0, 0, true, (1, 0.5, 0)⟩ : AppState).rotation_y = 0 ∧
    frame_update ⟨0, 0, 0, true, (1, 0.5, 0)⟩ (some none) ≠
      ⟨0, 0, 0, true, (1, 0.5, 0)⟩ := by
  have h : (frame_update ⟨0, 0, 0, true, (1, 0.5, 0)⟩ (some none)).rotation_y = 180 := by
    show ((1 : ℚ) - 0.5) * 360 = 180
    norm_num
  refine ⟨h, rfl, fun heq => ?_⟩
  rw [heq] at h
  norm_num at h

/-- Claim C8 (amended): when the camera read fails, the whole state (in
particular the transform) is held unchanged in either mode; when the
read succeeds but no hand is detected, manual mode holds the state, while
tracking mode recomputes the transform from the last stored hand
position — so the transform is held only if it already equals that
mapping. -/
theorem c8_no_detection (s : AppState) :
    frame_update s none = s ∧
    (s.use_hand_tracking = false → frame_update s (some none) = s) ∧
    (s.use_hand_tracking = true →
      frame_update s (some none) =
        { s with
          rotation_x := (get_rotation_angles s.hand_position).1,
          rotation_y := (get_rotation_angles s.hand_position).2.1,
          zoom := (get_rotation_angles s.hand_position).2.2 }) := by
  obtain ⟨a, b, c, d, e⟩ := s
  cases d with
  | false => exact ⟨rfl, fun _ => rfl, fun h => by simp at h⟩
  | true => exact ⟨rfl, fun h => by simp at h, fun _ => rfl⟩

/-- Witness for `c8_no_detection` at a concrete manual-mode state. -/
theorem c8_no_detection_witness :
    frame_update ⟨1, 2, 3, false, (0.25, 0.75, 0)⟩ (some none) =
      ⟨1, 2, 3, false, (0.25, 0.75, 0)⟩ :=
  (c8_no_detection ⟨1, 2, 3, false, (0.25, 0.75, 0)⟩).2.1 rfl

/-- Claim C9: each 2D overlay pass (camera feed, text) performs exactly
one projection push, one modelview push, and one matching pop of each
before returning, restores the current projection/modelview matrices and
both stacks exactly, and restores the depth-test and lighting toggles to
their 3D-pass (enabled) values. -/
theorem c9_overlay_protocol (s : GLState) (n : Nat)
    (hd : s.depthTest = true) (hl : s.lighting = true) :
    (overlayRestores s cameraOverlayOps ∧ overlayBalanced s.mode cameraOverlayOps) ∧
    (overlayRestores s (textOverlayOps n) ∧ overlayBalanced s.mode (textOverlayOps n)) := by
  constructor
  · exact ⟨⟨rfl, rfl, rfl, rfl, by rw [hd]; rfl, by rw [hl]; rfl⟩, ⟨rfl, rfl, rfl, rfl⟩⟩
  · refine ⟨⟨?_, ?_, ?_, ?_, ?_, ?_⟩, ⟨?_, ?_, ?_, ?_⟩⟩ <;>
      (induction n with
        | zero => first | rfl | (rw [hd]; rfl) | (rw [hl]; rfl)
        | succ k ih => exact ih)

/-- Witness for `c9_overlay_protocol` at a 3D-pass state and two text
lines. -/
theorem c9_overlay_protocol_witness :
    glInitState.depthTest = true ∧ glInitState.lighting = true ∧
    ((overlayRestores glInitState cameraOverlayOps ∧
        overlayBalanced glInitState.mode cameraOverlayOps) ∧
      (overlayRestores glInitState (textOverlayOps 2) ∧
        overlayBalanced glInitState.mode (textOverlayOps 2))) :=
  ⟨rfl, rfl, c9_overlay_protocol glInitState 2 rfl rfl⟩

/-- When no normals were parsed, `emitNormal` always yields the default
normal. -/
theorem emitNormal_nil {d : ObjData} {fv : Int × Int × Int}
    (hn : d.normals = []) : emitNormal d fv = some [0, 0, 1] := by
  unfold emitNormal
  rw [if_neg (by simp [hn])]

end VirtualArm

namespace VirtualArm

/-- A mesh with two vertices whose only face references vertex index
`-1`: the lookup `vertices[-2]` resolves to the first (second-to-last)
vertex. -/
def twoVertMesh : ObjData :=
  ⟨[[1, 1, 1], [2, 2, 2]], [], [], [[(-1, 0, 0)]]⟩

/-- Claim C1 (counterexample): the loader derives no normals.  Loading a
mesh file with one triangular face in the xz-plane and no normal records
emits the constant default normal `(0,0,1)` for all three face-vertices,
although the spec's derivation (cross product of the edge vectors,
normalized, i.e. some positive multiple of the cross product) would give
`(0,-1,0)`; `(0,0,1)` is not a positive multiple of `(0,-1,0)`. -/
theorem c1_counterexample :
    (OBJLoader_init xzTriLines).map (fun p => p.2.normal_data) =
      some [0, 0, 1, 0, 0, 1, 0, 0, 1] ∧
    specCross ((1, 0, 0) - (0, 0, 0)) ((0, 0, 1) - (0, 0, 0)) = (0, -1, 0) ∧
    ¬ ∃ c : ℚ, 0 < c ∧ ((0 : ℚ), (0 : ℚ), (1 : ℚ)) = (c * 0, c * (-1), c * 0) := by
  refine ⟨by decide, by norm_num [specCross, Prod.ext_iff], ?_⟩
  rintro ⟨c, hc, h⟩
  rw [Prod.mk.injEq, Prod.mk.injEq] at h
  have h1 : (1 : ℚ) = c * 0 := h.2.2
  norm_num at h1

/-- Claim C1 (amended): the loader performs no normal derivation.  When a
mesh loads with no parsed normals, every emitted normal is the constant
default `(0,0,1)`; in particular the spec's scenario (one triangular face
on `[[0,0,0],[1,0,0],[0,1,0]]`, no normals) yields 3 emitted vertices all
sharing the normal `(0,0,1)` — which coincides with that triangle's face
normal only by accident of its orientation. -/
theorem c1_default_normals :
    (∀ (d : ObjData) (b : GeometryBuffer), d.normals = [] → create_vbo d = some b →
      b.normal_data = (List.replicate d.faces.flatten.length ([0, 0, 1] : List ℚ)).flatten) ∧
    OBJLoader_init scenarioLines = some (scenarioMesh, scenarioBuf) := by
  constructor
  · intro d b hn hb
    obtain ⟨vp, np, hvp, hnp, rfl⟩ := create_vbo_inv hb
    have hconst : mapOpt (emitNormal d) d.faces.flatten =
        some (List.replicate d.faces.flatten.length [0, 0, 1]) :=
      mapOpt_const (fun fv _ => emitNormal_nil hn)
    rw [hnp] at hconst
    injection hconst with hconst
    show np.flatten = _
    rw [hconst]
  · decide

/-- Witness for `c1_default_normals` at the spec's scenario mesh. -/
theorem c1_default_normals_witness :
    scenarioBuf.normal_data =
      (List.replicate scenarioMesh.faces.flatten.length ([0, 0, 1] : List ℚ)).flatten :=
  c1_default_normals.1 scenarioMesh scenarioBuf rfl (by decide)

/-- Claim C2 (counterexample): an out-of-range positive vertex index DOES
abort the whole build and the whole load: a mesh whose single face
references vertex 2 while only one vertex exists raises IndexError. -/
theorem c2_counterexample :
    OBJLoader_init ["v 0 0 0", "f 1 2"] = none ∧ create_vbo oobMesh = none := by
  decide

/-- Claim C2 (amended): a face-vertex whose vertex index is `0` (the
parse result for a missing index field) emits `(0,0,0)` and never fails;
but a positive out-of-bounds vertex index makes its lookup raise, which
aborts the whole build. -/
theorem c2_zero_index_fallback :
    (∀ (d : ObjData) (ti ni : Int), emitVertex d (0, ti, ni) = some [0, 0, 0]) ∧
    (∀ (d : ObjData) (fv : Int × Int × Int), fv ∈ d.faces.flatten →
      emitVertex d fv = none → create_vbo d = none) ∧
    (∀ (d : ObjData) (vi ti ni : Int), (d.vertices.length : Int) < vi →
      emitVertex d (vi, ti, ni) = none) := by
  refine ⟨fun d ti ni => ?_, fun d fv hmem hfv => ?_, fun d vi ti ni hlt => ?_⟩
  · unfold emitVertex
    rw [if_neg (by simp)]
  · unfold create_vbo
    rw [mapOpt_none hmem hfv]
    rfl
  · unfold emitVertex
    rw [if_pos (by omega)]
    exact pyGet_ge _ _ (by omega)

/-- Witness for `c2_zero_index_fallback`: on `oobMesh`, the zero index
falls back to `(0,0,0)` while the out-of-range index 2 aborts the
build. -/
theorem c2_zero_index_fallback_witness :
    emitVertex oobMesh (0, 0, 0) = some [0, 0, 0] ∧ create_vbo oobMesh = none :=
  ⟨c2_zero_index_fallback.1 oobMesh 0 0,
   c2_zero_index_fallback.2.1 oobMesh (2, 0, 0) (by decide) (by decide)⟩

/-- Claim C3: whenever the buffer build succeeds on a mesh whose parsed
vertex and normal rows all have 3 components, the recorded vertex count
equals the total number of face-vertices, and both flattened streams have
length `3 *` that count. -/
theorem c3_buffer_counts (d : ObjData) (b : GeometryBuffer)
    (hb : create_vbo d = some b)
    (hv : ∀ v ∈ d.vertices, v.length = 3)
    (hn : ∀ v ∈ d.normals, v.length = 3) :
    b.vertex_count = (d.faces.map List.length).sum ∧
    b.vertex_data.length = 3 * b.vertex_count ∧
    b.normal_data.length = 3 * b.vertex_count := by
  obtain ⟨vp, np, hvp, hnp, rfl⟩ := create_vbo_inv hb
  have hvl : vp.flatten.length = 3 * d.faces.flatten.length := by
    rw [flatten_length_const3, mapOpt_length hvp]
    intro l hl
    obtain ⟨fv, _, hfl⟩ := mapOpt_mem hvp hl
    exact emitVertex_length hv hfl
  have hnl : np.flatten.length = 3 * d.faces.flatten.length := by
    rw [flatten_length_const3, mapOpt_length hnp]
    intro l hl
    obtain ⟨fv, _, hfl⟩ := mapOpt_mem hnp hl
    exact emitNormal_length hn hfl
  refine ⟨?_, ?_, ?_⟩
  · show vp.flatten.length / 3 = _
    rw [← List.length_flatten]
    omega
  · show vp.flatten.length = 3 * (vp.flatten.length / 3)
    omega
  · show np.flatten.length = 3 * (vp.flatten.length / 3)
    omega

/-- Witness for `c3_buffer_counts` at the spec's scenario mesh. -/
theorem c3_buffer_counts_witness :
    scenarioBuf.vertex_count = (scenarioMesh.faces.map List.length).sum ∧
    scenarioBuf.vertex_data.length = 3 * scenarioBuf.vertex_count ∧
    scenarioBuf.normal_data.length = 3 * scenarioBuf.vertex_count :=
  c3_buffer_counts scenarioMesh scenarioBuf (by decide) (by decide) (by decide)

/-- Claim C4: the tracking-mode mapping returns
`rotation_y = (x - 0.5) * 360`, `rotation_x = (y - 0.5) * 360` and
`zoom = z * -10` (the function returns the triple
`(rotation_x, rotation_y, zoom)`); the center input `(0.5, 0.5, 0)` maps
to exactly `(0, 0, 0)`, and the horizontal extremes map to
`rotation_y = 180` and `-180`. -/
theorem c4_tracking_map (x y z : ℚ)
    (_hx0 : 0 ≤ x) (_hx1 : x ≤ 1) (_hy0 : 0 ≤ y) (_hy1 : y ≤ 1) :
    get_rotation_angles (x, y, z) = ((y - 0.5) * 360, (x - 0.5) * 360, z * (-10)) ∧
    get_rotation_angles (0.5, 0.5, 0) = (0, 0, 0) ∧
    (get_rotation_angles (1, 0.5, 0)).2.1 = 180 ∧
    (get_rotation_angles (0, 0.5, 0)).2.1 = -180 := by
  refine ⟨rfl, ?_, ?_, ?_⟩ <;> norm_num [get_rotation_angles, Prod.ext_iff]

/-- Witness for `c4_tracking_map` at the center input. -/
theorem c4_tracking_map_witness :
    (0 : ℚ) ≤ 0.5 ∧ (0.5 : ℚ) ≤ 1 ∧ get_rotation_angles (0.5, 0.5, 0) = (0, 0, 0) :=
  ⟨by norm_num, by norm_num,
   (c4_tracking_map 0.5 0.5 0 (by norm_num) (by norm_num) (by norm_num)
      (by norm_num)).2.1⟩

/-- Claim C5 (counterexample): a face-vertex with negative normal index
`-1` (not `> 0`) and a non-empty normal list does NOT get the fallback:
the build emits `normals[-2] = (1,2,3)`, the second-to-last normal, not
`(0,0,1)`. -/
theorem c5_counterexample :
    create_vbo negNormalMesh = some ⟨[0, 0, 0], [1, 2, 3], 1⟩ ∧
    ([1, 2, 3] : List ℚ) ≠ [0, 0, 1] := by
  decide

/-- Claim C5 (amended): the emitted normal is `normals[normalIndex - 1]`
under Python (end-relative) indexing whenever `normalIndex ≠ 0` and the
normal list is non-empty (an out-of-range lookup aborts the build); when
`normalIndex = 0` or the normal list is empty, the default `(0,0,1)` is
emitted — no loader-derived normals exist. -/
theorem c5_emitted_normal_rule :
    (∀ (d : ObjData) (vi ti ni : Int), ni ≠ 0 → d.normals ≠ [] →
      emitNormal d (vi, ti, ni) = pyGet d.normals (ni - 1)) ∧
    (∀ (d : ObjData) (vi ti ni : Int), ni = 0 ∨ d.normals = [] →
      emitNormal d (vi, ti, ni) = some [0, 0, 1]) := by
  refine ⟨fun d vi ti ni h1 h2 => ?_, fun d vi ti ni h => ?_⟩
  · unfold emitNormal
    rw [if_pos ⟨h1, h2⟩]
  · unfold emitNormal
    rw [if_neg]
    rcases h with h | h
    · exact fun hc => hc.1 h
    · exact fun hc => hc.2 h

/-- Witness for `c5_emitted_normal_rule` on `negNormalMesh`. -/
theorem c5_emitted_normal_rule_witness :
    emitNormal negNormalMesh (1, 0, -1) = pyGet negNormalMesh.normals (-2) ∧
    emitNormal negNormalMesh (1, 0, 0) = some [0, 0, 1] :=
  ⟨c5_emitted_normal_rule.1 negNormalMesh 1 0 (-1) (by decide) (by decide),
   c5_emitted_normal_rule.2 negNormalMesh 1 0 0 (Or.inl rfl)⟩

/-- Claim C10 (counterexample): a negative vertex index CAN fail: with a
single vertex, index `-1` looks up `vertices[-2]`, which is out of range
even end-relative, so the build (and the whole load) aborts. -/
theorem c10_counterexample :
    create_vbo negOobMesh = none ∧
    OBJLoader_init ["v 7 8 9", "f -1"] = none := by
  decide

/-- Claim C10 (amended): a negative vertex (or normal) index is treated
as present (non-zero), is never replaced by the `(0,0,0)`/`(0,0,1)`
fallback, and resolves end-relative whenever `index - 1 + length ≥ 0`; in
particular vertex index `-1` emits the second-to-last vertex when the
mesh has at least two vertices (likewise in the
`src/module/model_module.py` variant), while an out-of-range negative
index aborts the build. -/
theorem c10_negative_index_wraps :
    (∀ (d : ObjData) (vi ti ni : Int), vi < 0 → 0 ≤ vi - 1 + d.vertices.length →
      emitVertex d (vi, ti, ni) = d.vertices.get? (vi - 1 + d.vertices.length).toNat) ∧
    (∀ (d : ObjData) (ti ni : Int), 2 ≤ d.vertices.length →
      emitVertex d (-1, ti, ni) = d.vertices.get? (d.vertices.length - 2)) ∧
    (∀ (d : ModObjData) (vi ni : Int), vi < 0 → 0 ≤ vi - 1 + d.vertices.length →
      modEmitVertex d (vi, ni) = d.vertices.get? (vi - 1 + d.vertices.length).toNat) ∧
    (∀ (d : ObjData) (vi ti ni : Int), ni < 0 → d.normals ≠ [] →
      0 ≤ ni - 1 + d.normals.length →
      emitNormal d (vi, ti, ni) = d.normals.get? (ni - 1 + d.normals.length).toNat) := by
  refine ⟨fun d vi ti ni h1 h2 => ?_, fun d ti ni h2 => ?_,
    fun d vi ni h1 h2 => ?_, fun d vi ti ni h1 hne h2 => ?_⟩
  · unfold emitVertex
    rw [if_pos (by omega), pyGet_neg _ _ (by omega), if_pos (by omega)]
  · unfold emitVertex
    rw [if_pos (by omega), pyGet_neg _ _ (by omega), if_pos (by omega)]
    congr 1
    omega
  · unfold modEmitVertex
    rw [pyGet_neg _ _ (by omega), if_pos (by omega)]
  · unfold emitNormal
    dsimp only
    rw [if_pos ⟨by omega, hne⟩, pyGet_neg _ _ (by omega), if_pos (by omega)]

/-- Witness for `c10_negative_index_wraps` on concrete meshes. -/
theorem c10_negative_index_wraps_witness :
    emitVertex twoVertMesh (-1, 0, 0) =
      twoVertMesh.vertices.get? (twoVertMesh.vertices.length - 2) ∧
    emitNormal negNormalMesh (1, 0, -1) =
      negNormalMesh.normals.get? ((-1 : Int) - 1 + negNormalMesh.normals.length).toNat :=
  ⟨c10_negative_index_wraps.2.1 twoVertMesh 0 0 (by decide),
   c10_negative_index_wraps.2.2.2 negNormalMesh 1 0 (-1) (by decide) (by decide)
     (by decide)⟩

end VirtualArm
